import Mathlib

/-!
Shallow embedding of the polymesh repository's core: the in-memory mesh
tree and its geometry flattener (`src/libpolymesh/src/common/mesh.rs`,
`src/libpolymesh/src/util/flatlist.rs`) and the external-storage tree
builder (`src/libpolymesh/src/polymesh.rs`).  Rust `Option`/`Vec`/`Box`
become Lean `Option`/`List`/values; `.unwrap()` panics are modelled as
`Option.none` (abnormal termination) or as `Except.error` values following
the spec's error taxonomy.  Types that the sources reference but whose
definitions are not among the provided files (`PolyVector`, `MeshDef`,
`PolyMeta`, the file loaders) are modelled from the spec, each marked so
in its doc comment.
-/

/-- Modelled from the spec: the 3-component translation vector
(`PolyVector` from `common/transform.rs`, which is not among the provided
sources).  The spec describes it as "a 3-component numeric vector"
supporting componentwise addition and a zero identity. -/
structure PolyVector where
  x : Int
  y : Int
  z : Int
  deriving DecidableEq

/-- Modelled from the spec: the zero (identity) translation. -/
def PolyVector.zero : PolyVector := ⟨0, 0, 0⟩

/-- Modelled from the spec: componentwise vector addition. -/
def PolyVector.add (a b : PolyVector) : PolyVector :=
  ⟨a.x + b.x, a.y + b.y, a.z + b.z⟩

instance : Add PolyVector := ⟨PolyVector.add⟩

/-- `MeshType` from `common/mesh.rs`. -/
inductive MeshType where
  | Group
  | Geometry
  | GeoGroup
  deriving DecidableEq

/-- Modelled from the spec: the opaque geometry payload (`MeshDef` from
`common/serialization/data/mesh.rs`, not among the provided sources).  The
spec treats geometry as opaque data with one operation, "return a copy
repositioned by a given transform"; we model a payload tag plus the
position that repositioning translates. -/
structure MeshDef where
  data : Nat
  pos : PolyVector
  deriving DecidableEq

mutual
/-- `PolyMesh` from `common/mesh.rs`: mesh type, optional geometry,
metadata map (`HashMap` modelled as an association list) and the ordered
children. -/
inductive PolyMesh where
  | mk : MeshType → Option MeshDef → List (String × String) → List TransPolyMeshPtr → PolyMesh

/-- `TransPolyMeshPtr` from `common/mesh.rs`: path, owned mesh
(`Box<PolyMesh>` becomes a plain value) and optional translation. -/
inductive TransPolyMeshPtr where
  | mk : String → PolyMesh → Option PolyVector → TransPolyMeshPtr
end

def PolyMesh.mesh_type : PolyMesh → MeshType
  | .mk t _ _ _ => t

def PolyMesh.geometry : PolyMesh → Option MeshDef
  | .mk _ g _ _ => g

def PolyMesh.metadata : PolyMesh → List (String × String)
  | .mk _ _ m _ => m

def PolyMesh.children : PolyMesh → List TransPolyMeshPtr
  | .mk _ _ _ c => c

def TransPolyMeshPtr.path : TransPolyMeshPtr → String
  | .mk p _ _ => p

def TransPolyMeshPtr.mesh : TransPolyMeshPtr → PolyMesh
  | .mk _ m _ => m

def TransPolyMeshPtr.translation : TransPolyMeshPtr → Option PolyVector
  | .mk _ _ t => t

/-- `TransPolyMeshPtr::get_translation` from `common/mesh.rs`: the stored
translation, or zero when unset. -/
def TransPolyMeshPtr.get_translation (e : TransPolyMeshPtr) : PolyVector :=
  match e.translation with
  | some x => x
  | none => PolyVector.zero

/-- `TransPolyMeshPtr::new_from_transform` from `common/mesh.rs`: a new
edge with this edge's path and mesh and the summed translation. -/
def TransPolyMeshPtr.new_from_transform (e other : TransPolyMeshPtr) : TransPolyMeshPtr :=
  .mk e.path e.mesh (some (e.get_translation + other.get_translation))

/-- `TransPolyMeshPtr::new_from_transform_optional` from `common/mesh.rs`:
compose when an ancestor edge is supplied, otherwise return a clone. -/
def TransPolyMeshPtr.new_from_transform_optional (e : TransPolyMeshPtr) :
    Option TransPolyMeshPtr → TransPolyMeshPtr
  | some val => e.new_from_transform val
  | none => e

/-- `PolyMesh::contains_geometry` from `common/mesh.rs`. -/
def PolyMesh.contains_geometry (m : PolyMesh) : Bool :=
  m.mesh_type == MeshType.Geometry || m.mesh_type == MeshType.GeoGroup || m.geometry.isSome

/-- Modelled from the spec: `PolyChildReference` from
`common/serialization/data/polymeta.rs` (not among the provided sources):
a child's path and its optional translation, as serialized. -/
structure PolyChildReference where
  path : String
  translation : Option PolyVector
  deriving DecidableEq

/-- Modelled from the spec: the latest metadata schema version tag
(`LATEST_POLY_META_VERSION`, not among the provided sources; the spec only
requires a version tag, so its concrete value is arbitrary here). -/
def LATEST_POLY_META_VERSION : Nat := 2

/-- Modelled from the spec: `PolyMeta` from
`common/serialization/data/polymeta.rs` (not among the provided sources):
the serializable, geometry-free summary of a node. -/
structure PolyMeta where
  version : Nat
  mesh_type : MeshType
  metadata : List (String × String)
  children : List PolyChildReference
  deriving DecidableEq

/-- `PolyMesh::to_poly_meta` from `common/mesh.rs`; the for-loop pushing
one `PolyChildReference` per child is translated as a `List.map`. -/
def PolyMesh.to_poly_meta (m : PolyMesh) : PolyMeta :=
  ⟨LATEST_POLY_META_VERSION, m.mesh_type, m.metadata,
    m.children.map (fun c => ⟨c.path, c.translation⟩)⟩

/-- Modelled from the spec: `MeshDef::transformed_by` (from the
serialization module, not among the provided sources) returns a copy of
the payload repositioned by the translation carried by the given edge. -/
def MeshDef.transformed_by (g : MeshDef) (e : TransPolyMeshPtr) : MeshDef :=
  ⟨g.data, g.pos + e.get_translation⟩

/-- The body of the `if child_mesh.contains_geometry()` block of
`get_flat_geometry_recursive` from `util/flatlist.rs`: push the child's
geometry repositioned by the absolute edge, where the `.unwrap()` on a
missing payload is modelled as `none` (panic). -/
def visit_child_geometry (abs_child : TransPolyMeshPtr) (all_geo : List MeshDef) :
    Option (List MeshDef) :=
  if abs_child.mesh.contains_geometry then
    match abs_child.mesh.geometry with
    | some g => some (all_geo ++ [g.transformed_by abs_child])
    | none => none
  else some all_geo

mutual
/-- `get_flat_geometry_recursive` from `util/flatlist.rs`; the `&mut Vec`
output parameter is threaded through as the accumulator `all_geo`, and a
panic anywhere in the traversal is the overall result `none`. -/
def get_flat_geometry_recursive :
    PolyMesh → Option TransPolyMeshPtr → List MeshDef → Option (List MeshDef)
  | .mk _ _ _ children, parent_transform, all_geo =>
    flat_children children parent_transform all_geo

/-- The `for child in &root_mesh.children` loop of
`get_flat_geometry_recursive`, one step per child edge. -/
def flat_children :
    List TransPolyMeshPtr → Option TransPolyMeshPtr → List MeshDef → Option (List MeshDef)
  | [], _, all_geo => some all_geo
  | TransPolyMeshPtr.mk cpath cmesh ctr :: rest, parent_transform, all_geo =>
    match visit_child_geometry
        ((TransPolyMeshPtr.mk cpath cmesh ctr).new_from_transform_optional parent_transform)
        all_geo with
    | none => none
    | some acc1 =>
      match get_flat_geometry_recursive cmesh
          (some ((TransPolyMeshPtr.mk cpath cmesh ctr).new_from_transform_optional
            parent_transform)) acc1 with
      | none => none
      | some acc2 => flat_children rest parent_transform acc2
end

/-- `get_flat_geometry` from `util/flatlist.rs`. -/
def get_flat_geometry (root_mesh : PolyMesh) : Option (List MeshDef) :=
  get_flat_geometry_recursive root_mesh none []

/-- Written from the spec's words (§4.5, step 2b): the entry a child edge
itself contributes — its mesh's own geometry repositioned by the absolute
edge when the mesh contains geometry, nothing otherwise (`none` models the
failure on a contains-geometry node with no payload). -/
def own_entry (abs_child : TransPolyMeshPtr) : Option (List MeshDef) :=
  if abs_child.mesh.contains_geometry then
    match abs_child.mesh.geometry with
    | some g => some [g.transformed_by abs_child]
    | none => none
  else some []

mutual
/-- Written from the spec's words (§4.5): direct pre-order,
children-in-declaration-order flattening with no accumulator — each
child's own entry comes before its subtree's entries, and sibling
subtrees follow the order of the children list.  Stated for comparison
with `get_flat_geometry_recursive`, the accumulator version from the
source. -/
def flatten_preorder : PolyMesh → Option TransPolyMeshPtr → Option (List MeshDef)
  | .mk _ _ _ children, ambient => flatten_preorder_children children ambient

/-- The per-child step of `flatten_preorder`. -/
def flatten_preorder_children :
    List TransPolyMeshPtr → Option TransPolyMeshPtr → Option (List MeshDef)
  | [], _ => some []
  | TransPolyMeshPtr.mk cpath cmesh ctr :: rest, ambient =>
    match own_entry
        ((TransPolyMeshPtr.mk cpath cmesh ctr).new_from_transform_optional ambient) with
    | none => none
    | some own =>
      match flatten_preorder cmesh
          (some ((TransPolyMeshPtr.mk cpath cmesh ctr).new_from_transform_optional
            ambient)) with
      | none => none
      | some sub =>
        match flatten_preorder_children rest ambient with
        | none => none
        | some tail => some (own ++ sub ++ tail)
end

mutual
/-- "Geometry already loaded", the spec's assumption on in-memory trees:
every node that `contains_geometry` actually holds a geometry payload. -/
def geo_loaded : PolyMesh → Bool
  | PolyMesh.mk mt g md ch =>
    (!(PolyMesh.mk mt g md ch).contains_geometry || g.isSome) && geo_loaded_children ch

/-- `geo_loaded` over a children list. -/
def geo_loaded_children : List TransPolyMeshPtr → Bool
  | [] => true
  | TransPolyMeshPtr.mk _ m _ :: rest => geo_loaded m && geo_loaded_children rest
end

namespace file

/-- Modelled from the spec: `PolyVec` from `file/data/vector.rs` (not
among the provided sources), the 3-component translation used by the tree
builder in `polymesh.rs`. -/
structure PolyVec where
  x : Int
  y : Int
  z : Int
  deriving DecidableEq

/-- Modelled from the spec: the zero (identity) translation. -/
def PolyVec.zero : PolyVec := ⟨0, 0, 0⟩

/-- Modelled from the spec: componentwise vector addition. -/
def PolyVec.add (a b : PolyVec) : PolyVec :=
  ⟨a.x + b.x, a.y + b.y, a.z + b.z⟩

instance : Add PolyVec := ⟨PolyVec.add⟩

/-- Modelled from the spec: `PolyMesh` from `file/data/mesh.rs` (not
among the provided sources), a loaded leaf mesh as handled by
`polymesh.rs` — an opaque payload tag plus its absolute position. -/
structure PolyMesh where
  data : Nat
  pos : PolyVec
  deriving DecidableEq

/-- Modelled from the spec: `PolyMesh::build_transformed` (not among the
provided sources) — "build a single MeshNode with that geometry
repositioned by the accumulated transform" (§4.4). -/
def PolyMesh.build_transformed (m : PolyMesh) (t : PolyVec) : PolyMesh :=
  ⟨m.data, m.pos + t⟩

/-- Modelled from the spec: a child reference of the on-disk descriptor
as consumed by `polymesh.rs` — a relative path fragment plus the edge's
translation (`child.path`, `child.transform`). -/
structure PolyChildReference where
  path : String
  transform : PolyVec
  deriving DecidableEq

/-- Modelled from the spec: the on-disk group descriptor as consumed by
`polymesh.rs` — a group flag (`meta.group`) plus child references. -/
structure PolyMeta where
  group : Bool
  children : List PolyChildReference
  deriving DecidableEq

/-- Modelled from the spec (§6): the external-storage collaborator — a
map from file path to parse result, `none` standing for a missing or
malformed file. -/
structure Env where
  metas : String → Option PolyMeta
  meshes : String → Option PolyMesh

/-- `parse_poly_meta` from `file/data/polymeta.rs` (not among the
provided sources), modelled from the spec as a lookup in the
external-storage collaborator. -/
def parse_poly_meta (env : Env) (p : String) : Option PolyMeta := env.metas p

/-- `mesh_from_file` from `file/data/mesh.rs` (not among the provided
sources), modelled from the spec as a lookup in the external-storage
collaborator. -/
def mesh_from_file (env : Env) (p : String) : Option PolyMesh := env.meshes p

/-- The spec's error taxonomy (§7) for tree building; in `polymesh.rs`
both failures are `.unwrap()` panics, distinguished by which load
panicked. -/
inductive LoadError where
  | DescriptorLoadError
  | GeometryLoadError
  deriving DecidableEq

/-- The per-child body of the `for child in &meta.children` loop of
`recurse_collect_meshes` from `polymesh.rs`, iterated over the children
list; `rec` is the recursive call at the next depth.  An `Except.error`
anywhere aborts the whole loop with that error; `none` means the depth
bound was exceeded. -/
def collect_children_with
    (rec : String → PolyMeta → PolyVec → Option (Except LoadError (List PolyMesh)))
    (env : Env) (path : String) :
    List PolyChildReference → PolyVec → Option (Except LoadError (List PolyMesh))
  | [], _ => some (Except.ok [])
  | child :: rest, transform =>
    match parse_poly_meta env (path ++ child.path ++ "/polymeta.json") with
    | none => some (Except.error LoadError.DescriptorLoadError)
    | some new_meta =>
      match rec (path ++ child.path) new_meta (transform + child.transform) with
      | none => none
      | some (Except.error e) => some (Except.error e)
      | some (Except.ok child_meshes) =>
        match collect_children_with rec env path rest transform with
        | none => none
        | some (Except.error e) => some (Except.error e)
        | some (Except.ok out) => some (Except.ok (child_meshes ++ out))

/-- `recurse_collect_meshes` from `polymesh.rs`.  The `.unwrap()` panics
on failed loads are modelled as `Except.error` values following the
spec's error taxonomy (§7); `fuel` bounds the recursion depth (the Rust
recursion is unbounded), `none` meaning the bound was exceeded. -/
def recurse_collect_meshes :
    Nat → Env → String → PolyMeta → PolyVec → Option (Except LoadError (List PolyMesh))
  | 0, _, _, _, _ => none
  | Nat.succ fuel, env, path, meta, transform =>
    if !meta.group then
      match mesh_from_file env (path ++ "/mesh.json") with
      | none => some (Except.error LoadError.GeometryLoadError)
      | some mesh => some (Except.ok [PolyMesh.build_transformed mesh transform])
    else
      collect_children_with (fun p m t => recurse_collect_meshes fuel env p m t)
        env path meta.children transform

/-- `FlatPolyMesh` from `polymesh.rs`. -/
structure FlatPolyMesh where
  root_meta : PolyMeta
  flat_meshes : List PolyMesh
  deriving DecidableEq

/-- `FlatPolyMesh::new` from `polymesh.rs`: load the root descriptor and
crawl the tree of children from `PolyVec::zero`; the `.unwrap()` on the
root descriptor is modelled as `DescriptorLoadError`. -/
def FlatPolyMesh.new (fuel : Nat) (env : Env) (root_path : String) :
    Option (Except LoadError FlatPolyMesh) :=
  match parse_poly_meta env (root_path ++ "/polymeta.json") with
  | none => some (Except.error LoadError.DescriptorLoadError)
  | some root_meta =>
    match recurse_collect_meshes fuel env root_path root_meta PolyVec.zero with
    | none => none
    | some (Except.error e) => some (Except.error e)
    | some (Except.ok flat_meshes) => some (Except.ok ⟨root_meta, flat_meshes⟩)

end file

/-- The stored tree of the spec's end-to-end scenario 2: root Group with
one child Group at translation `(1,0,0)` holding one grandchild Geometry
leaf at translation `(0,2,0)` whose payload `Q` is tag `7` at the
origin. -/
def scenario2_env : file.Env :=
  ⟨fun s =>
    if s = "r/polymeta.json" then some ⟨true, [⟨"/a", ⟨1, 0, 0⟩⟩]⟩
    else if s = "r/a/polymeta.json" then some ⟨true, [⟨"/b", ⟨0, 2, 0⟩⟩]⟩
    else if s = "r/a/b/polymeta.json" then some ⟨false, []⟩
    else none,
   fun s => if s = "r/a/b/mesh.json" then some ⟨7, ⟨0, 0, 0⟩⟩ else none⟩

/-- The stored tree of scenario 2 with its only geometry file missing:
every descriptor is readable but the leaf's mesh load fails. -/
def scenario2_broken_env : file.Env :=
  ⟨fun s =>
    if s = "r/polymeta.json" then some ⟨true, [⟨"/a", ⟨1, 0, 0⟩⟩]⟩
    else if s = "r/a/polymeta.json" then some ⟨true, [⟨"/b", ⟨0, 2, 0⟩⟩]⟩
    else if s = "r/a/b/polymeta.json" then some ⟨false, []⟩
    else none,
   fun _ => none⟩

/-- The in-memory tree of the spec's end-to-end scenario 3: a root whose
only child is a GeoGroup at translation `(0,0,5)` with own payload `R`
(tag `8` at the origin), which has one Geometry child at translation
`(1,0,0)` with payload `S` (tag `9` at the origin). -/
def scenario3_root : PolyMesh :=
  .mk .Group none []
    [.mk "g"
      (.mk .GeoGroup (some ⟨8, ⟨0, 0, 0⟩⟩) []
        [.mk "s" (.mk .Geometry (some ⟨9, ⟨0, 0, 0⟩⟩) [] []) (some ⟨1, 0, 0⟩)])
      (some ⟨0, 0, 5⟩)]

/-- A tree on which the flattener's internal `.unwrap()` panics: the
root's only child is a node of kind Geometry whose payload is missing, so
`contains_geometry()` holds but `geometry` is `None`. -/
def unloaded_root : PolyMesh :=
  .mk .Group none [] [.mk "c" (.mk .Geometry none [] []) none]

/-- A small well-formed (geometry already loaded) tree: one Geometry
child carrying a payload. -/
def loaded_root : PolyMesh :=
  .mk .Group none [] [.mk "c" (.mk .Geometry (some ⟨4, ⟨0, 0, 0⟩⟩) [] []) (some ⟨2, 0, 0⟩)]

/-- A childless root of kind Geometry that itself carries a payload. -/
def lone_geometry_root : PolyMesh :=
  .mk .Geometry (some ⟨3, ⟨0, 0, 0⟩⟩) [] []

theorem PolyVector.add_comm (a b : PolyVector) : a + b = b + a := by
  cases a; cases b
  simp only [HAdd.hAdd, Add.add, PolyVector.add, PolyVector.mk.injEq]
  exact ⟨Int.add_comm _ _, Int.add_comm _ _, Int.add_comm _ _⟩

theorem TransPolyMeshPtr.mesh_new_from_transform_optional
    (c : TransPolyMeshPtr) (p : Option TransPolyMeshPtr) :
    (c.new_from_transform_optional p).mesh = c.mesh := by
  cases p with
  | none => rfl
  | some q => rfl

theorem visit_child_geometry_eq_own_entry (a : TransPolyMeshPtr) (acc : List MeshDef) :
    visit_child_geometry a acc = (own_entry a).map (fun t => acc ++ t) := by
  unfold visit_child_geometry own_entry
  cases h : a.mesh.contains_geometry with
  | false => simp
  | true =>
    cases hg : a.mesh.geometry with
    | none => simp
    | some g => simp

theorem flat_children_eq_preorder_aux :
    ∀ (n : Nat) (l : List TransPolyMeshPtr), sizeOf l < n →
      ∀ (p : Option TransPolyMeshPtr) (acc : List MeshDef),
        flat_children l p acc = (flatten_preorder_children l p).map (fun t => acc ++ t) := by
  intro n
  induction n with
  | zero => exact fun l h => absurd h (Nat.not_lt_zero _)
  | succ n ih =>
    intro l hl p acc
    match l with
    | [] => simp [flat_children, flatten_preorder_children]
    | TransPolyMeshPtr.mk cpath cmesh ctr :: rest =>
      match cmesh with
      | PolyMesh.mk mt g md gch =>
        have hgch : sizeOf gch < n := by
          have h1 := hl
          simp only [List.cons.sizeOf_spec, TransPolyMeshPtr.mk.sizeOf_spec,
            PolyMesh.mk.sizeOf_spec] at h1
          omega
        have hrest : sizeOf rest < n := by
          have h1 := hl
          simp only [List.cons.sizeOf_spec] at h1
          omega
        simp only [flat_children, flatten_preorder_children,
          get_flat_geometry_recursive, flatten_preorder,
          visit_child_geometry_eq_own_entry, ih gch hgch, ih rest hrest]
        cases own_entry
            ((TransPolyMeshPtr.mk cpath (PolyMesh.mk mt g md gch) ctr).new_from_transform_optional
              p) with
        | none => simp
        | some own =>
          simp only [Option.map_some']
          cases flatten_preorder_children gch
              (some ((TransPolyMeshPtr.mk cpath (PolyMesh.mk mt g md gch)
                ctr).new_from_transform_optional p)) with
          | none => simp
          | some sub =>
            simp only [Option.map_some']
            cases flatten_preorder_children rest p with
            | none => simp
            | some tail => simp [List.append_assoc]

theorem flat_children_eq_preorder (l : List TransPolyMeshPtr)
    (p : Option TransPolyMeshPtr) (acc : List MeshDef) :
    flat_children l p acc = (flatten_preorder_children l p).map (fun t => acc ++ t) :=
  flat_children_eq_preorder_aux (sizeOf l + 1) l (Nat.lt_succ_self _) p acc

theorem flat_children_cons (c : TransPolyMeshPtr) (rest : List TransPolyMeshPtr)
    (p : Option TransPolyMeshPtr) (acc : List MeshDef) :
    flat_children (c :: rest) p acc =
      match visit_child_geometry (c.new_from_transform_optional p) acc with
      | none => none
      | some acc1 =>
        match flat_children c.mesh.children (some (c.new_from_transform_optional p)) acc1 with
        | none => none
        | some acc2 => flat_children rest p acc2 := by
  cases c with
  | mk cpath cmesh ctr => cases cmesh with
    | mk mt g md gch => rfl

theorem visit_child_geometry_isSome (a : TransPolyMeshPtr) (acc : List MeshDef)
    (h : (!a.mesh.contains_geometry || a.mesh.geometry.isSome) = true) :
    (visit_child_geometry a acc).isSome = true := by
  unfold visit_child_geometry
  cases hc : a.mesh.contains_geometry with
  | false => simp
  | true =>
    rw [hc] at h
    simp only [Bool.not_true, Bool.false_or] at h
    cases hg : a.mesh.geometry with
    | none => rw [hg] at h; simp at h
    | some g => simp

theorem flat_children_isSome_aux :
    ∀ (n : Nat) (l : List TransPolyMeshPtr), sizeOf l < n →
      geo_loaded_children l = true →
      ∀ (p : Option TransPolyMeshPtr) (acc : List MeshDef),
        (flat_children l p acc).isSome = true := by
  intro n
  induction n with
  | zero => exact fun l h => absurd h (Nat.not_lt_zero _)
  | succ n ih =>
    intro l hl hwf p acc
    match l with
    | [] => simp [flat_children]
    | TransPolyMeshPtr.mk cpath cmesh ctr :: rest =>
      match cmesh with
      | PolyMesh.mk mt g md gch =>
        have hgch : sizeOf gch < n := by
          have h1 := hl
          simp only [List.cons.sizeOf_spec, TransPolyMeshPtr.mk.sizeOf_spec,
            PolyMesh.mk.sizeOf_spec] at h1
          omega
        have hrest : sizeOf rest < n := by
          have h1 := hl
          simp only [List.cons.sizeOf_spec] at h1
          omega
        simp only [geo_loaded_children, geo_loaded, Bool.and_eq_true] at hwf
        obtain ⟨⟨hcg, hgch_wf⟩, hrest_wf⟩ := hwf
        rw [flat_children_cons]
        have hmesh : ((TransPolyMeshPtr.mk cpath (PolyMesh.mk mt g md gch)
            ctr).new_from_transform_optional p).mesh = PolyMesh.mk mt g md gch :=
          TransPolyMeshPtr.mesh_new_from_transform_optional _ _
        obtain ⟨acc1, hacc1⟩ := Option.isSome_iff_exists.mp
          (visit_child_geometry_isSome _ acc (by rw [hmesh]; exact hcg))
        rw [hacc1]
        simp only [TransPolyMeshPtr.mesh, PolyMesh.children]
        obtain ⟨acc2, hacc2⟩ := Option.isSome_iff_exists.mp
          (ih gch hgch hgch_wf
            (some ((TransPolyMeshPtr.mk cpath (PolyMesh.mk mt g md gch)
              ctr).new_from_transform_optional p)) acc1)
        rw [hacc2]
        exact ih rest hrest hrest_wf p acc2

theorem flat_children_isSome (l : List TransPolyMeshPtr)
    (hwf : geo_loaded_children l = true)
    (p : Option TransPolyMeshPtr) (acc : List MeshDef) :
    (flat_children l p acc).isSome = true :=
  flat_children_isSome_aux (sizeOf l + 1) l (Nat.lt_succ_self _) hwf p acc

/-- C1 counterexample: `get_flat_geometry` is not total on every tree —
on a root whose child is a node of kind Geometry with no payload, the
internal `.unwrap()` of the geometry payload is reached and the function
panics (modelled as `none`). -/
theorem flatten_panics_on_unloaded_geometry :
    get_flat_geometry unloaded_root = none := rfl

/-- C1 (amended): on every tree whose geometry is already loaded — every
node for which `contains_geometry()` holds carries a payload — the
flattener is total: it returns a flat geometry list and its internal
`.unwrap()` of the geometry payload is unreachable. -/
theorem flatten_total_on_loaded_trees (m : PolyMesh) (h : geo_loaded m = true) :
    (get_flat_geometry m).isSome = true := by
  cases m with
  | mk mt g md ch =>
    show (flat_children ch none []).isSome = true
    simp only [geo_loaded, Bool.and_eq_true] at h
    exact flat_children_isSome ch h.2 none []

/-- Witness for C1's amended theorem at a concrete loaded tree. -/
theorem flatten_total_on_loaded_trees_witness :
    geo_loaded loaded_root = true ∧ (get_flat_geometry loaded_root).isSome = true :=
  ⟨rfl, flatten_total_on_loaded_trees loaded_root rfl⟩

/-- C3: for every `PolyMesh`, `contains_geometry()` is true iff its kind
is Geometry or GeoGroup or a geometry payload is present; in particular
it is false for a Group node with no payload. -/
theorem contains_geometry_iff (m : PolyMesh) :
    (m.contains_geometry = true ↔
      m.mesh_type = MeshType.Geometry ∨ m.mesh_type = MeshType.GeoGroup ∨
        m.geometry.isSome = true) ∧
    ∀ (md : List (String × String)) (ch : List TransPolyMeshPtr),
      (PolyMesh.mk MeshType.Group none md ch).contains_geometry = false := by
  constructor
  · simp [PolyMesh.contains_geometry, or_assoc]
  · intro md ch
    rfl

/-- C4: `new_from_transform` sums the two edges' translations (`None`
read as zero) — the same value whichever edge plays the ancestor role —
while the resulting edge's path and owned mesh always come from the edge
the method is called on, never from the ancestor argument. -/
theorem new_from_transform_sums_and_keeps_child (a b : TransPolyMeshPtr) :
    (a.new_from_transform b).translation = some (a.get_translation + b.get_translation) ∧
    (a.new_from_transform b).translation = (b.new_from_transform a).translation ∧
    (a.new_from_transform b).path = a.path ∧
    (a.new_from_transform b).mesh = a.mesh := by
  refine ⟨rfl, ?_, rfl, rfl⟩
  show some (a.get_translation + b.get_translation) =
    some (b.get_translation + a.get_translation)
  exact congrArg some (PolyVector.add_comm _ _)

/-- C5: `to_poly_meta` carries the node's kind, a copy of its metadata
map, and one `{path, translation}` entry per child in children order,
each stored optional translation copied verbatim (the None-vs-zero
distinction preserved). -/
theorem to_poly_meta_projects (m : PolyMesh) :
    m.to_poly_meta.version = LATEST_POLY_META_VERSION ∧
    m.to_poly_meta.mesh_type = m.mesh_type ∧
    m.to_poly_meta.metadata = m.metadata ∧
    m.to_poly_meta.children = m.children.map (fun c => ⟨c.path, c.translation⟩) :=
  ⟨rfl, rfl, rfl, rfl⟩

/-- C7: on scenario 3's tree — a GeoGroup child at translation `(0,0,5)`
with own payload `R` (tag 8) holding one Geometry child at `(1,0,0)` with
payload `S` (tag 9) — the flattener returns exactly two entries in order:
`R` repositioned by `(0,0,5)`, then `S` repositioned by the cumulative
`(1,0,5)`. -/
theorem flatten_scenario3 :
    get_flat_geometry scenario3_root =
      some [⟨8, ⟨0, 0, 5⟩⟩, ⟨9, ⟨1, 0, 5⟩⟩] := rfl

/-- C8: flattening is deterministic — the same tree flattens to the same
output — and the output is the pre-order, children-in-declaration-order
traversal: each node's geometry precedes its subtree's and sibling
subtrees appear in children-list order (`flatten_preorder`, written from
the spec's words). -/
theorem flatten_deterministic_preorder (root : PolyMesh) :
    get_flat_geometry root = get_flat_geometry root ∧
    get_flat_geometry root = flatten_preorder root none := by
  refine ⟨rfl, ?_⟩
  cases root with
  | mk mt g md ch =>
    show flat_children ch none [] = flatten_preorder_children ch none
    rw [flat_children_eq_preorder]
    cases flatten_preorder_children ch none <;> simp

/-- C9: the flattener never emits the root's own geometry payload — the
result depends only on the root's children, so a childless root flattens
to the empty list even when the root itself contains geometry (e.g. the
childless Geometry root `lone_geometry_root`). -/
theorem flatten_ignores_root_payload (mt : MeshType) (g : Option MeshDef)
    (md : List (String × String)) (ch : List TransPolyMeshPtr) :
    get_flat_geometry (PolyMesh.mk mt g md ch) =
      get_flat_geometry (PolyMesh.mk MeshType.Group none md ch) ∧
    (ch = [] → get_flat_geometry (PolyMesh.mk mt g md ch) = some []) ∧
    lone_geometry_root.contains_geometry = true ∧
    get_flat_geometry lone_geometry_root = some [] := by
  refine ⟨rfl, ?_, rfl, rfl⟩
  intro h
  subst h
  rfl

/-- C10: composing any two edges yields a `Some` translation — the
None/zero distinction does not survive `new_from_transform` — while
`new_from_transform_optional` with no ancestor returns the edge
unchanged (so only that path can keep a `None` translation). -/
theorem new_from_transform_always_some (a b : TransPolyMeshPtr) :
    (a.new_from_transform b).translation.isSome = true ∧
    a.new_from_transform_optional (some b) = a.new_from_transform b ∧
    a.new_from_transform_optional none = a :=
  ⟨rfl, rfl, rfl⟩

/-- C6: on scenario 2's stored tree — root Group, child Group at
`(1,0,0)`, grandchild Geometry leaf at `(0,2,0)` with payload `Q`
(tag 7) — `FlatPolyMesh::new` returns exactly one leaf mesh: `Q`
repositioned by the accumulated absolute translation `(1,2,0)`. -/
theorem build_tree_scenario2 :
    file.FlatPolyMesh.new 3 scenario2_env "r" =
      some (Except.ok ⟨⟨true, [⟨"/a", ⟨1, 0, 0⟩⟩]⟩, [⟨7, ⟨1, 2, 0⟩⟩]⟩) := rfl

/-- C2: tree building is fail-fast — a failed root-descriptor load yields
`DescriptorLoadError`; a failed geometry load on a non-group yields
`GeometryLoadError`; a failing child after any successful prefix of
siblings aborts the whole loop with that error, discarding the prefix's
meshes and ignoring the remaining siblings; any error in the recursion is
the result of `FlatPolyMesh::new`, which then carries no mesh list; and
concretely, scenario 2 with its geometry file missing builds no partial
list but fails whole with `GeometryLoadError`. -/
theorem build_tree_fail_fast (fuel : Nat) (env : file.Env) (path : String) :
    (file.parse_poly_meta env (path ++ "/polymeta.json") = none →
      file.FlatPolyMesh.new fuel env path =
        some (Except.error file.LoadError.DescriptorLoadError)) ∧
    (∀ (meta : file.PolyMeta) (t : file.PolyVec), meta.group = false →
      file.mesh_from_file env (path ++ "/mesh.json") = none →
      file.recurse_collect_meshes (fuel + 1) env path meta t =
        some (Except.error file.LoadError.GeometryLoadError)) ∧
    (∀ (rec : String → file.PolyMeta → file.PolyVec →
        Option (Except file.LoadError (List file.PolyMesh)))
      (t : file.PolyVec) (pre : List file.PolyChildReference)
      (c : file.PolyChildReference) (post : List file.PolyChildReference)
      (ms : List file.PolyMesh) (e : file.LoadError),
      file.collect_children_with rec env path pre t = some (Except.ok ms) →
      file.collect_children_with rec env path (c :: post) t = some (Except.error e) →
      file.collect_children_with rec env path (pre ++ c :: post) t =
        some (Except.error e)) ∧
    (∀ (meta : file.PolyMeta) (e : file.LoadError),
      file.parse_poly_meta env (path ++ "/polymeta.json") = some meta →
      file.recurse_collect_meshes fuel env path meta file.PolyVec.zero =
        some (Except.error e) →
      file.FlatPolyMesh.new fuel env path = some (Except.error e)) ∧
    file.FlatPolyMesh.new 3 scenario2_broken_env "r" =
      some (Except.error file.LoadError.GeometryLoadError) := by
  refine ⟨?_, ?_, ?_, ?_, rfl⟩
  · intro h
    simp [file.FlatPolyMesh.new, h]
  · intro meta t hg hm
    simp [file.recurse_collect_meshes, hg, hm]
  · intro rec t pre c post ms e h1 h2
    induction pre generalizing ms with
    | nil => simpa using h2
    | cons d pre' ih =>
      simp only [file.collect_children_with] at h1 ⊢
      cases hm : file.parse_poly_meta env (path ++ d.path ++ "/polymeta.json") with
      | none => simp [hm] at h1
      | some dm =>
        simp only [hm] at h1 ⊢
        cases hr : rec (path ++ d.path) dm (t + d.transform) with
        | none => simp [hr] at h1
        | some r =>
          match r with
          | Except.error e1 => simp [hr] at h1
          | Except.ok ms1 =>
            simp only [hr] at h1 ⊢
            cases hc2 : file.collect_children_with rec env path pre' t with
            | none => simp [hc2] at h1
            | some r2 =>
              match r2 with
              | Except.error e2 => simp [hc2] at h1
              | Except.ok ms2 =>
                simp only [List.append_eq]
                rw [ih ms2 hc2]
  · intro meta e hp hr
    simp [file.FlatPolyMesh.new, hp, hr]
